import Mathlib

/-!
Verification of the token-storage behaviour, OAuth/PKCE client logic and
MCP tool error handling of this repository.

The Python sources are shallowly embedded: JSON values become the inductive
type `J`, Python dicts become association lists with unique keys, the token
file `tokens.json` becomes an entry of an association list of file names,
network calls become explicit `Except`-valued parameters (an `error` carries
the text `str(e)` of the raised exception), and clock reads become an
explicit integer parameter.  Numeric JSON values and times are modelled as
integers.
-/

set_option maxHeartbeats 1000000
set_option maxRecDepth 100000

/-- JSON-like values, as stored in token dictionaries and API responses. -/
inductive J where
  | null : J
  | str : String → J
  | int : Int → J
  | obj : List (String × J) → J
  | arr : List J → J

/-- A JSON object / Python dict with string keys, as an association list
with the unique-key discipline of Python dicts. -/
abbrev Dict := List (String × J)

/-- Key lookup in an association list, `d.get(k)` on a Python dict. -/
def alook {α : Type} : List (String × α) → String → Option α
  | [], _ => none
  | (k', v) :: rest, k => if k' = k then some v else alook rest k

/-- Key membership, `k in d` on a Python dict. -/
def amem {α : Type} (d : List (String × α)) (k : String) : Bool :=
  (alook d k).isSome

/-- Assignment `d[k] = v` on a Python dict: overwrite in place when the key
exists, append otherwise (Python dicts keep insertion order). -/
def ains {α : Type} : List (String × α) → String → α → List (String × α)
  | [], k, v => [(k, v)]
  | (k', v') :: rest, k, v =>
      if k' = k then (k, v) :: rest else (k', v') :: ains rest k v

/-- Key removal, `d.pop(k, None)` on a Python dict. -/
def aerase {α : Type} (d : List (String × α)) (k : String) :
    List (String × α) :=
  d.filter (fun p => !(p.1 == k))

theorem alook_ains_self {α : Type} (d : List (String × α)) (k : String)
    (v : α) : alook (ains d k v) k = some v := by
  induction d with
  | nil => simp [ains, alook]
  | cons hd tl ih =>
      obtain ⟨k', v'⟩ := hd
      by_cases h : k' = k
      · simp [ains, h, alook]
      · simp [ains, h, alook, ih]

theorem alook_ains_ne {α : Type} (d : List (String × α)) (k k' : String)
    (v : α) (h : k ≠ k') : alook (ains d k v) k' = alook d k' := by
  induction d with
  | nil => simp [ains, alook, h]
  | cons hd tl ih =>
      obtain ⟨k₀, v₀⟩ := hd
      by_cases h₀ : k₀ = k
      · subst h₀
        simp [ains, alook, h]
      · simp [ains, h₀, alook, ih]

theorem alook_aerase_self {α : Type} (d : List (String × α)) (k : String) :
    alook (aerase d k) k = none := by
  induction d with
  | nil => simp [aerase, alook]
  | cons hd tl ih =>
      obtain ⟨k₀, v₀⟩ := hd
      simp only [aerase, List.filter_cons] at ih ⊢
      by_cases h₀ : k₀ = k
      · simp [h₀, ih]
      · simp [h₀, alook, ih]

/-- Python truthiness of an optional JSON value (`None` is falsy, as are
empty strings, zero, empty objects and empty arrays). -/
def truthy : Option J → Bool
  | none => false
  | some J.null => false
  | some (J.str s) => !(s == "")
  | some (J.int n) => !(n == 0)
  | some (J.obj l) => !l.isEmpty
  | some (J.arr l) => !l.isEmpty

/-- Source config.py: the token storage file name, `tokens.json`. -/
def TOKEN_STORAGE_FILE : String := "tokens.json"

namespace Okta

/-- The observable state of an `OktaAuthClient` run: `fs` maps file names to
the parsed JSON dictionary each file holds (a file that is absent or
unreadable has no entry), and `mem` is the in-memory `self.tokens`.
`json.dump` followed by `json.load` round-trips, so a file's content is
modelled as the dictionary itself. -/
structure ClientState where
  fs : List (String × Dict)
  mem : Dict

/-- Source okta_auth_client.py, `OktaAuthClient.load_tokens`: when the file
exists and parses, set `self.tokens` to its content and return it; when the
file is absent (or unreadable), return `{}` but leave `self.tokens`
unchanged. -/
def load_tokens (σ : ClientState) : Dict × ClientState :=
  match alook σ.fs TOKEN_STORAGE_FILE with
  | some d => (d, { σ with mem := d })
  | none => ([], σ)

/-- Source okta_auth_client.py, `OktaAuthClient.save_tokens`: set
`self.tokens` and write the dictionary to `TOKEN_STORAGE_FILE`. -/
def save_tokens (σ : ClientState) (tokens : Dict) : ClientState :=
  { fs := ains σ.fs TOKEN_STORAGE_FILE tokens, mem := tokens }

/-- The in-memory dictionary right after a `load_tokens()` call. -/
def afterMem (σ : ClientState) : Dict := (load_tokens σ).2.mem

/-- The client state right after a `load_tokens()` call. -/
def afterState (σ : ClientState) : ClientState := (load_tokens σ).2

/-- Source okta_auth_client.py, `OktaAuthClient.is_token_valid`: reload the
token file, answer `false` when `self.tokens` is empty or lacks
`token_type`, otherwise consult `expires_at` with a 60-second buffer
against the current time `now`.  The result is `none` exactly when the
Python code would raise an uncaught `TypeError` (a non-numeric
`expires_at`). -/
def is_token_valid (σ : ClientState) (token_type : String) (now : Int) :
    Option (Bool × ClientState) :=
  let σ₁ := (load_tokens σ).2
  if σ₁.mem.isEmpty || !(amem σ₁.mem token_type) then some (false, σ₁)
  else
    match alook σ₁.mem "expires_at" with
    | some (J.int t) =>
        if now ≥ t - 60 then some (false, σ₁) else some (true, σ₁)
    | some _ => none
    | none => some (true, σ₁)

/-- Source okta_auth_client.py, `OktaAuthClient.revoke_tokens` (the base
class): delete the token file when it exists and clear `self.tokens`,
returning `true`; return `false` when there is no file. -/
def base_revoke_tokens (σ : ClientState) : Bool × ClientState :=
  if amem σ.fs TOKEN_STORAGE_FILE then
    (true, { fs := aerase σ.fs TOKEN_STORAGE_FILE, mem := [] })
  else (false, σ)

/-- Source okta_oauth_example.py, the expiry bookkeeping shared by
`exchange_code_for_tokens` and `refresh_tokens`: when the response contains
`expires_in`, store `expires_at = time.time() + expires_in`.  `none` models
the uncaught `TypeError` the Python code would raise on a non-numeric
`expires_in`. -/
def add_expires_at (tokens : Dict) (now : Int) : Option Dict :=
  match alook tokens "expires_in" with
  | none => some tokens
  | some (J.int k) => some (ains tokens "expires_at" (J.int (now + k)))
  | some _ => none

/-- Source okta_oauth_example.py, `OktaOAuthClient.exchange_code_for_tokens`.
The HTTP POST to the token endpoint is the parameter `response`: an `error`
carries `str(e)` of the raised `RequestException` (the code then returns an
error dictionary and saves nothing), an `ok` carries the parsed JSON body
(the code adds `expires_at` when possible, saves and returns the result). -/
def exchange_code_for_tokens (σ : ClientState) (response : Except String Dict)
    (now : Int) : Option (Dict × ClientState) :=
  match response with
  | .error e => some ([("error", J.str e)], σ)
  | .ok tokens =>
      match add_expires_at tokens now with
      | none => none
      | some tokens' => some (tokens', save_tokens σ tokens')

/-- Source okta_oauth_example.py, `OktaOAuthClient.refresh_tokens`.  Result:
`(ok, final state, whether the token endpoint was contacted)`; `none` is an
uncaught `TypeError`.  The code reloads the file, bails out without a
network call when `refresh_token` is absent, and on a successful POST adds
`expires_at`, carries the old `refresh_token` over when the response lacks
one, and saves. -/
def refresh_tokens (σ : ClientState) (response : Except String Dict)
    (now : Int) : Option (Bool × ClientState × Bool) :=
  let σ₁ := (load_tokens σ).2
  if !(amem σ₁.mem "refresh_token") then some (false, σ₁, false)
  else
    match response with
    | .error _ => some (false, σ₁, true)
    | .ok new_tokens =>
        match add_expires_at new_tokens now with
        | none => none
        | some t₁ =>
            let t₂ :=
              if !(amem t₁ "refresh_token") && amem σ₁.mem "refresh_token" then
                match alook σ₁.mem "refresh_token" with
                | some v => ains t₁ "refresh_token" v
                | none => t₁
              else t₁
            some (true, save_tokens σ₁ t₂, true)

/-- Source okta_oauth_example.py, `OktaOAuthClient.revoke_tokens`.  Result:
`(ok, final state, whether the revocation endpoint was contacted)`.  The
code reloads the file, returns `true` at once when `self.tokens` is empty,
returns `false` at once when `tokens.get('access_token',
tokens.get('refresh_token'))` is falsy, and otherwise POSTs to the
revocation endpoint, clearing local storage via the base class on
success. -/
def revoke_tokens (σ : ClientState) (response : Except String Unit) :
    Bool × ClientState × Bool :=
  let σ₁ := (load_tokens σ).2
  if σ₁.mem.isEmpty then (true, σ₁, false)
  else
    let token_to_revoke : Option J :=
      match alook σ₁.mem "access_token" with
      | some v => some v
      | none => alook σ₁.mem "refresh_token"
    if !(truthy token_to_revoke) then (false, σ₁, false)
    else
      match response with
      | .error _ => (false, σ₁, true)
      | .ok _ => (true, (base_revoke_tokens σ₁).2, true)

end Okta

/-- Big-endian byte decomposition of a number into the given number of
bytes. -/
def toBE : Nat → Nat → List Nat
  | 0, _ => []
  | n + 1, v => toBE n (v / 256) ++ [v % 256]

/-- UTF-8 encoding of one character, the byte layout of
`str.encode('utf-8')`. -/
def utf8EncodeChar (c : Char) : List Nat :=
  let n := c.toNat
  if n < 0x80 then [n]
  else if n < 0x800 then
    [0xC0 ||| (n >>> 6), 0x80 ||| (n &&& 0x3F)]
  else if n < 0x10000 then
    [0xE0 ||| (n >>> 12), 0x80 ||| ((n >>> 6) &&& 0x3F), 0x80 ||| (n &&& 0x3F)]
  else
    [0xF0 ||| (n >>> 18), 0x80 ||| ((n >>> 12) &&& 0x3F),
     0x80 ||| ((n >>> 6) &&& 0x3F), 0x80 ||| (n &&& 0x3F)]

/-- UTF-8 encoding of a string as a list of bytes. -/
def utf8Encode (s : String) : List Nat :=
  (s.data.map utf8EncodeChar).flatten

/-- Arithmetic is over 32-bit words, represented as naturals below 2^32. -/
def M32 : Nat := 4294967296

/-- Rotation of a 32-bit word to the right by `n` bits. -/
def rotr32 (n x : Nat) : Nat :=
  ((x >>> n) ||| ((x <<< (32 - n)) % M32)) % M32

/-- Bitwise complement of a 32-bit word. -/
def compl32 (x : Nat) : Nat := x ^^^ (M32 - 1)

/-- The SHA-256 round constants. -/
def sha256K : List Nat :=
  [1116352408, 1899447441, 3049323471, 3921009573,
   961987163, 1508970993, 2453635748, 2870763221,
   3624381080, 310598401, 607225278, 1426881987,
   1925078388, 2162078206, 2614888103, 3248222580,
   3835390401, 4022224774, 264347078, 604807628,
   770255983, 1249150122, 1555081692, 1996064986,
   2554220882, 2821834349, 2952996808, 3210313671,
   3336571891, 3584528711, 113926993, 338241895,
   666307205, 773529912, 1294757372, 1396182291,
   1695183700, 1986661051, 2177026350, 2456956037,
   2730485921, 2820302411, 3259730800, 3345764771,
   3516065817, 3600352804, 4094571909, 275423344,
   430227734, 506948616, 659060556, 883997877,
   958139571, 1322822218, 1537002063, 1747873779,
   1955562222, 2024104815, 2227730452, 2361852424,
   2428436474, 2756734187, 3204031479, 3329325298]

/-- The SHA-256 working state, eight 32-bit words. -/
structure H8 where
  a : Nat
  b : Nat
  c : Nat
  d : Nat
  e : Nat
  f : Nat
  g : Nat
  h : Nat

/-- The SHA-256 initial hash value. -/
def sha256H0 : H8 :=
  ⟨1779033703, 3144134277, 1013904242, 2773480762,
   1359893119, 2600822924, 528734635, 1541459225⟩

/-- SHA-256 message padding: a 0x80 byte, zeros to 56 mod 64, and the
bit length as a 64-bit big-endian integer. -/
def sha256pad (msg : List Nat) : List Nat :=
  let L := msg.length
  msg ++ [0x80] ++ List.replicate ((119 - L % 64) % 64) 0 ++ toBE 8 (L * 8)

/-- Split a byte list into 64-byte chunks; the fuel argument (instantiated
with the length of the list, which bounds the number of chunks) keeps the
recursion structural. -/
def chunks64Aux : Nat → List Nat → List (List Nat)
  | 0, _ => []
  | _, [] => []
  | fuel + 1, l => l.take 64 :: chunks64Aux fuel (l.drop 64)

/-- Split a byte list into 64-byte chunks. -/
def chunks64 (l : List Nat) : List (List Nat) := chunks64Aux l.length l

/-- Group bytes into big-endian 32-bit words. -/
def bytesToWords : List Nat → List Nat
  | b0 :: b1 :: b2 :: b3 :: rest =>
      (((b0 * 256 + b1) * 256 + b2) * 256 + b3) :: bytesToWords rest
  | _ => []

/-- The two small sigma functions of the SHA-256 message schedule. -/
def sigma0 (x : Nat) : Nat := (rotr32 7 x) ^^^ (rotr32 18 x) ^^^ (x >>> 3)

/-- Second small sigma function. -/
def sigma1 (x : Nat) : Nat := (rotr32 17 x) ^^^ (rotr32 19 x) ^^^ (x >>> 10)

/-- The two big sigma functions of the SHA-256 compression loop. -/
def bigSigma0 (x : Nat) : Nat :=
  (rotr32 2 x) ^^^ (rotr32 13 x) ^^^ (rotr32 22 x)

/-- Second big sigma function. -/
def bigSigma1 (x : Nat) : Nat :=
  (rotr32 6 x) ^^^ (rotr32 11 x) ^^^ (rotr32 25 x)

/-- Extend the sixteen chunk words to the 64-entry message schedule. -/
def extendSchedule (w : Array Nat) : Array Nat :=
  (List.range 48).foldl
    (fun w _ =>
      let n := w.size
      w.push ((w[n - 16]! + sigma0 w[n - 15]! + w[n - 7]! + sigma1 w[n - 2]!)
        % M32))
    w

/-- One round of the SHA-256 compression function. -/
def sha256round (st : H8) (ki wi : Nat) : H8 :=
  let t1 := (st.h + bigSigma1 st.e
    + ((st.e &&& st.f) ^^^ (compl32 st.e &&& st.g)) + ki + wi) % M32
  let t2 := (bigSigma0 st.a
    + ((st.a &&& st.b) ^^^ (st.a &&& st.c) ^^^ (st.b &&& st.c))) % M32
  { a := (t1 + t2) % M32, b := st.a, c := st.b, d := st.c,
    e := (st.d + t1) % M32, f := st.e, g := st.f, h := st.g }

/-- Compress one 64-byte chunk into the running hash value. -/
def compressChunk (hs : H8) (chunk : List Nat) : H8 :=
  let w := extendSchedule (bytesToWords chunk).toArray
  let st := (List.range 64).foldl
    (fun st i => sha256round st (sha256K.getD i 0) (w[i]!)) hs
  { a := (hs.a + st.a) % M32, b := (hs.b + st.b) % M32,
    c := (hs.c + st.c) % M32, d := (hs.d + st.d) % M32,
    e := (hs.e + st.e) % M32, f := (hs.f + st.f) % M32,
    g := (hs.g + st.g) % M32, h := (hs.h + st.h) % M32 }

/-- SHA-256 digest of a byte list, as the 32 digest bytes
(`hashlib.sha256(...).digest()`). -/
def sha256 (msg : List Nat) : List Nat :=
  let hs := (chunks64 (sha256pad msg)).foldl compressChunk sha256H0
  ([hs.a, hs.b, hs.c, hs.d, hs.e, hs.f, hs.g, hs.h].map (toBE 4)).flatten

/-- The URL-safe base64 alphabet used by `base64.urlsafe_b64encode`. -/
def b64urlAlphabet : List Char :=
  "ABCDEFGHIJKLMNOPQRSTUVWXYZabcdefghijklmnopqrstuvwxyz0123456789-_".data

/-- Character of the URL-safe base64 alphabet at a sextet value. -/
def b64c (n : Nat) : Char := b64urlAlphabet.getD n 'A'

/-- URL-safe base64 encoding with padding,
`base64.urlsafe_b64encode(...).decode('utf-8')`. -/
def b64urlEncode : List Nat → String
  | [] => ""
  | [a] => String.mk [b64c (a / 4), b64c (a % 4 * 16), '=', '=']
  | [a, b] =>
      String.mk [b64c (a / 4), b64c (a % 4 * 16 + b / 16),
                 b64c (b % 16 * 4), '=']
  | a :: b :: c :: rest =>
      String.mk [b64c (a / 4), b64c (a % 4 * 16 + b / 16),
                 b64c (b % 16 * 4 + c / 64), b64c (c % 64)]
        ++ b64urlEncode rest

/-- Remove all trailing `=` characters, Python's `.rstrip('=')`. -/
def rstripEq (s : String) : String :=
  String.mk (s.data.reverse.dropWhile (fun c => c == '=')).reverse

/-- The code challenge of RFC 7636 section 4.2, following the wording of
the spec: base64url encoding, with padding removed, of the SHA-256 digest
of the UTF-8 encoding of the verifier.  This is the spec-side definition
the two source-side PKCE generators are compared against. -/
def pkce_challenge_rfc (verifier : String) : String :=
  rstripEq (b64urlEncode (sha256 (utf8Encode verifier)))

namespace Okta

/-- Source okta_oauth_example.py, `OktaOAuthClient.generate_pkce_pair`, with
the random verifier `secrets.token_urlsafe(64)` as a parameter; returns the
pair (code_verifier, code_challenge). -/
def generate_pkce_pair (code_verifier : String) : String × String :=
  let code_challenge := sha256 (utf8Encode code_verifier)
  let code_challenge := b64urlEncode code_challenge
  let code_challenge := rstripEq code_challenge
  (code_verifier, code_challenge)

end Okta

namespace Sf

/-- Source salesforce_oauth_app.py, the PKCE pair built inline in the
`/login` handler, with the random `secrets.token_bytes(32)` as a
parameter; returns the pair (code_verifier, code_challenge). -/
def login_pkce_pair (randomBytes : List Nat) : String × String :=
  let code_verifier := rstripEq (b64urlEncode randomBytes)
  let code_challenge :=
    rstripEq (b64urlEncode (sha256 (utf8Encode code_verifier)))
  (code_verifier, code_challenge)

end Sf

example : sha256 [] =
    [227, 176, 196, 66, 152, 252, 28, 20,
     154, 251, 244, 200, 153, 111, 185, 36,
     39, 174, 65, 228, 100, 155, 147, 76,
     164, 149, 153, 27, 120, 82, 184, 85] := by decide

example : sha256 (utf8Encode "abc") =
    [186, 120, 22, 191, 143, 1, 207, 234,
     65, 65, 64, 222, 93, 174, 34, 35,
     176, 3, 97, 163, 150, 23, 122, 156,
     180, 16, 255, 97, 242, 0, 21, 173] := by decide

example : pkce_challenge_rfc "dBjftJeZ4CVP-mB92K27uhbUJU1p1r_wW1gFWFOEjXk" =
    "E9Melhoa2OwvFrEMTJguCHaoeK1t8URWbuGJSstw-cM" := by decide

namespace Sf

/-- The module-level mutable state of salesforce_oauth_app.py: the
`user_tokens` and `pkce_verifiers` dictionaries. -/
structure AppState where
  user_tokens : List (String × Dict)
  pkce_verifiers : List (String × String)

/-- An HTTP response of the Salesforce token endpoint: status code, parsed
JSON body (used when the status is 200) and raw text (used otherwise). -/
structure TokenHttp where
  status : Nat
  json : Dict
  text : String

/-- The response pages of the `/auth/salesforce/callback` handler, one
constructor per return point of the source. -/
inductive CallbackPage where
  | errorParam (err : String)
  | noCode
  | invalidState
  | tokenError (text : String)
  | success (sessionId : String) (tokens : Dict) (userInfo : Dict)

/-- Source salesforce_oauth_app.py, `salesforce_callback`.  The query
parameters `code`, `state`, `error` may be absent; `tokenHttp` is the POST
to the token endpoint, `freshSession` the random
`secrets.token_urlsafe(16)` session id, and `userInfo` the dictionary
`get_user_info` returns.  The page is `none` when the handler would raise
an uncaught error (a 200 token body without string `access_token` and
`instance_url`); the state is final in either case, since `user_tokens`
and `pkce_verifiers` are module-level dictionaries mutated before the
raise. -/
def salesforce_callback (st : AppState) (code state error : Option String)
    (tokenHttp : TokenHttp) (freshSession : String) (userInfo : Dict) :
    Option CallbackPage × AppState :=
  match error with
  | some e => (some (.errorParam e), st)
  | none =>
    match code with
    | none => (some .noCode, st)
    | some _ =>
      let code_verifier : Option String :=
        match state with
        | some s => alook st.pkce_verifiers s
        | none => none
      match code_verifier with
      | none => (some .invalidState, st)
      | some _ =>
        if tokenHttp.status ≠ 200 then (some (.tokenError tokenHttp.text), st)
        else
          let tokens := tokenHttp.json
          let st₁ : AppState :=
            { st with user_tokens := ains st.user_tokens freshSession tokens }
          let st₂ : AppState :=
            { st₁ with pkce_verifiers :=
                match state with
                | some s => aerase st₁.pkce_verifiers s
                | none => st₁.pkce_verifiers }
          match alook tokens "access_token", alook tokens "instance_url" with
          | some (J.str _), some (J.str _) =>
              (some (.success freshSession tokens userInfo), st₂)
          | _, _ => (none, st₂)

end Sf

/-- A JSON value for an optional string, Python `None` becoming JSON
null. -/
def optStrJ : Option String → J
  | some s => J.str s
  | none => J.null

/-- A JSON value for an optional raw value. -/
def optJ : Option J → J
  | some v => v
  | none => J.null

/-- Python `region or os.environ.get('AWS_REGION', 'us-east-1')`: the first
argument when truthy, otherwise the environment value, otherwise the
default. -/
def regionOrDefault (region : Option String) (awsRegionEnv : Option String) :
    String :=
  match region with
  | some s => if s = "" then awsRegionEnv.getD "us-east-1" else s
  | none => awsRegionEnv.getD "us-east-1"

namespace QBus

/-- One entry of the ListApplications response. -/
structure AppEntry where
  applicationId : Option String
  name : Option String
  description : Option String

/-- The ListApplications response body. -/
structure ListAppsResponse where
  applications : List AppEntry
  nextToken : Option String

/-- One entry of the ListRetrievers response. -/
structure Retriever where
  retrieverId : Option String
  name : Option String
  type : Option String

/-- The boto3 Q Business client of `qbusiness_list_applications_tool`, as
the outcomes of the API calls the tool makes: an `error` carries `str(e)`
of the raised exception. -/
structure ListClient where
  list_applications : Option Int → Option String → Except String ListAppsResponse
  list_retrievers : Option String → Except String (List Retriever)

/-- The per-application info dictionary built by the loop body of
`qbusiness_list_applications_tool`, including the inner
try/except around `list_retrievers`. -/
def appInfoJ (client : ListClient) (app : AppEntry) : Dict :=
  let base : Dict :=
    [("applicationId", optStrJ app.applicationId),
     ("name", optStrJ app.name),
     ("description", optStrJ app.description)]
  match client.list_retrievers app.applicationId with
  | .ok rs =>
      base ++ [("retrievers",
        J.arr (rs.map (fun r =>
          J.obj [("retrieverId", optStrJ r.retrieverId),
                 ("name", optStrJ r.name),
                 ("type", optStrJ r.type)])))]
  | .error e => base ++ [("retrievers_error", J.str e)]

/-- Source amazon-q-mcp-server server.py, `qbusiness_list_applications_tool`
(the `QBusinessListApplicationsTool` MCP tool).  `awsRegionEnv` is the
`AWS_REGION` environment variable. -/
def qbusiness_list_applications_tool (client : ListClient)
    (awsRegionEnv : Option String) (region : Option String)
    (maxResults : Option Int) (nextToken : Option String) : J :=
  match client.list_applications maxResults nextToken with
  | .error e =>
      J.obj [("error", J.str e),
             ("region", J.str (regionOrDefault region awsRegionEnv))]
  | .ok resp =>
      let applications := resp.applications.map (fun app => J.obj (appInfoJ client app))
      J.obj [("region", J.str (regionOrDefault region awsRegionEnv)),
             ("count", J.int applications.length),
             ("applications", J.arr applications),
             ("nextToken", optStrJ resp.nextToken)]

/-- The score attributes of a SearchRelevantContent content item. -/
structure ScoreAttrs where
  scoreConfidence : Option String

/-- One document attribute of a content item. -/
structure DocAttr where
  name : Option String
  value : Option J

/-- One relevant content item of the SearchRelevantContent response. -/
structure ContentItem where
  content : Option J
  documentId : Option String
  documentTitle : Option String
  documentUri : Option String
  scoreAttributes : Option ScoreAttrs
  documentAttributes : Option (List DocAttr)

/-- The SearchRelevantContent response body. -/
structure SearchResponse where
  relevantContent : List ContentItem
  nextToken : Option String

/-- The per-item dictionary built by the loop body of
`qbusiness_search_relevant_content_tool`. -/
def contentItemJ (item : ContentItem) : Dict :=
  let base : Dict :=
    [("content", optJ item.content),
     ("documentId", optStrJ item.documentId),
     ("documentTitle", optStrJ item.documentTitle),
     ("documentUri", optStrJ item.documentUri),
     ("scoreConfidence",
        match item.scoreAttributes with
        | some sa => optStrJ sa.scoreConfidence
        | none => J.null)]
  match item.documentAttributes with
  | some attrs =>
      if attrs.isEmpty then base
      else
        base ++ [("documentAttributes",
          J.arr (attrs.map (fun a =>
            J.obj [("name", optStrJ a.name), ("value", optJ a.value)])))]
  | none => base

/-- Source amazon-q-mcp-server server.py,
`qbusiness_search_relevant_content_tool` (the
`QBusinessSearchRelevantContentTool` MCP tool).  The identity-aware client
is abstracted as the single outcome `search` of the
`search_relevant_content` call the tool makes. -/
def qbusiness_search_relevant_content_tool
    (search : Except String SearchResponse) (queryText : String)
    (applicationId : String) (retrieverId : String) : J :=
  match search with
  | .error e =>
      J.obj [("error", J.str e),
             ("query", J.str queryText),
             ("applicationId", J.str applicationId),
             ("retrieverId", J.str retrieverId)]
  | .ok resp =>
      J.obj [("query", J.str queryText),
             ("applicationId", J.str applicationId),
             ("retrieverId", J.str retrieverId),
             ("nextToken", optStrJ resp.nextToken),
             ("results",
                J.arr (resp.relevantContent.map (fun item =>
                  J.obj (contentItemJ item))))]

/-- The request parameter dictionary `qbusiness_chat_sync_tool` builds for
the ChatSync call, with its hard-coded applicationId, pluginId and
authChallengeResponse. -/
def chatSyncRequestParams (userMessage : String)
    (conversationId attributionToken : Option String) : Dict :=
  let base : Dict :=
    [("applicationId", J.str "43b53b94-f607-4c3d-8938-d05937db8d62"),
     ("userMessage", J.str userMessage),
     ("chatMode", J.str "PLUGIN_MODE"),
     ("chatModeConfiguration",
        J.obj [("pluginConfiguration",
          J.obj [("pluginId", J.str "e3873c23-5455-44c6-bea1-fbaadf3b22c4")])]),
     ("authChallengeResponse",
        J.obj [("responseMap",
          J.obj [("access_token",
                   J.str "00Dbm00000Iyskm!AQEAQLU_nn3W2.LPFwxYO2mC5874YKBNx0"),
                 ("instance_url",
                   J.str "https://aws200-dev-ed.develop.lightning.force.com/services/data/v60.0")])])]
  let base :=
    match conversationId with
    | some c => ains base "conversationId" (J.str c)
    | none => base
  match attributionToken with
  | some t => ains base "attributionToken" (J.str t)
  | none => base

/-- The plugin result of a ChatSync response. -/
structure PluginResult where
  pluginId : Option String
  status : Option String
  body : Option J

/-- One citation of a ChatSync response. -/
structure Citation where
  title : Option String
  url : Option String
  snippet : Option String

/-- The ChatSync response body. -/
structure ChatSyncResponse where
  conversationId : Option String
  systemMessage : Option String
  attributionToken : Option String
  pluginResult : Option PluginResult
  citations : Option (List Citation)

/-- Source amazon-q-mcp-server server.py, `qbusiness_chat_sync_tool` (the
`QBusinessChatSyncTool` MCP tool).  `chat_sync` is the outcome of the
ChatSync API as a function of the request dictionary the tool builds; the
`region` argument only selects the (abstracted) client and is otherwise
unused by the source. -/
def qbusiness_chat_sync_tool (chat_sync : Dict → Except String ChatSyncResponse)
    (userMessage : String) (_region : Option String)
    (conversationId attributionToken : Option String) : J :=
  let request_params := chatSyncRequestParams userMessage conversationId attributionToken
  match chat_sync request_params with
  | .error e =>
      J.obj [("error", J.str e),
             ("applicationId", J.str "43b53b94-f607-4c3d-8938-d05937db8d62"),
             ("userMessage", J.str userMessage),
             ("pluginId", J.str "e3873c23-5455-44c6-bea1-fbaadf3b22c4")]
  | .ok resp =>
      let base : Dict :=
        [("conversationId", optStrJ resp.conversationId),
         ("systemMessage", optStrJ resp.systemMessage),
         ("userMessage", J.str userMessage),
         ("attributionToken", optStrJ resp.attributionToken)]
      let base :=
        match resp.pluginResult with
        | some pr =>
            ains base "pluginResult"
              (J.obj [("pluginId", optStrJ pr.pluginId),
                      ("status", optStrJ pr.status),
                      ("body", optJ pr.body)])
        | none => base
      match resp.citations with
      | some cs =>
          if cs.isEmpty then J.obj base
          else
            J.obj (ains base "citations"
              (J.arr (cs.map (fun c =>
                J.obj [("title", optStrJ c.title),
                       ("url", optStrJ c.url),
                       ("snippet", optStrJ c.snippet)]))))
      | none => J.obj base

end QBus

namespace Kendra

/-- A text-holding sub-object of a Kendra result item (`DocumentTitle`,
`DocumentExcerpt`). -/
structure DocText where
  Text : Option String

/-- The score attributes of a Kendra result item. -/
structure KScoreAttrs where
  ScoreConfidence : Option String

/-- One result item of a Kendra Query response. -/
structure KResultItem where
  Id : Option String
  Type_ : Option String
  DocumentTitle : Option DocText
  DocumentURI : Option String
  ScoreAttributes : Option KScoreAttrs
  DocumentExcerpt : Option DocText
  AdditionalAttributes : Option J

/-- The Kendra Query response body. -/
structure KQueryResponse where
  TotalNumberOfResults : Option Int
  ResultItems : List KResultItem

/-- The per-item dictionary built by the loop body of the Kendra query
tool. -/
def kResultItemJ (item : KResultItem) : Dict :=
  let base : Dict :=
    [("id", optStrJ item.Id),
     ("type", optStrJ item.Type_),
     ("document_title",
        J.str (match item.DocumentTitle with
               | some dt => dt.Text.getD ""
               | none => "")),
     ("document_uri", J.str (item.DocumentURI.getD "")),
     ("score",
        J.str (match item.ScoreAttributes with
               | some sa => sa.ScoreConfidence.getD ""
               | none => ""))]
  let base :=
    match item.DocumentExcerpt with
    | some de =>
        match de.Text with
        | some t => ains base "excerpt" (J.str t)
        | none => base
    | none => base
  match item.AdditionalAttributes with
  | some aa => ains base "additional_attributes" aa
  | none => base

/-- Source kendra-index-mcpserver-mcp-server server.py, `example_tool` (the
`MeowExampleTool` MCP tool).  `kendraIndexIdEnv` is the `KENDRA_INDEX_ID`
environment variable; `queryApi` is the outcome of the Kendra `query` call
as a function of the index id and query text, an `error` carrying `str(e)`
of the raised exception.  A missing index id raises a `ValueError` that
the same handler catches. -/
def example_tool (kendraIndexIdEnv : Option String)
    (queryApi : String → String → Except String KQueryResponse)
    (query : String) : J :=
  match kendraIndexIdEnv with
  | none =>
      J.obj [("error", J.str "KENDRA_INDEX_ID environment variable is not set."),
             ("query", J.str query),
             ("index_id", J.null)]
  | some kendra_index_id =>
      match queryApi kendra_index_id query with
      | .error e =>
          J.obj [("error", J.str e),
                 ("query", J.str query),
                 ("index_id", J.str kendra_index_id)]
      | .ok response =>
          J.obj [("query", J.str query),
                 ("total_results_count", J.int (response.TotalNumberOfResults.getD 0)),
                 ("results", J.arr (response.ResultItems.map (fun item => J.obj (kResultItemJ item))))]

/-- The `ValueError`s `math_tool` can raise, with their data. -/
inductive MathError where
  | zeroDenominator (b : ℚ)
  | invalidOperation (operation : String)

/-- Source kendra-index-mcpserver-mcp-server server.py, `math_tool` (the
`MathTool` MCP tool).  Numbers are modelled as rationals; Python raises
`ZeroDivisionError` on `a / b` exactly when `b == 0`, which the code turns
into a `ValueError`, and any operation outside the four hits the wildcard
case and raises a `ValueError`. -/
def math_tool (operation : String) (a b : ℚ) : Except MathError ℚ :=
  match operation with
  | "add" => .ok (a + b)
  | "subtract" => .ok (a - b)
  | "multiply" => .ok (a * b)
  | "divide" =>
      if b = 0 then .error (.zeroDenominator b) else .ok (a / b)
  | _ => .error (.invalidOperation operation)

/-- The constructor arguments of a TVMClient. -/
structure TVMClientConfig where
  issuer : String
  client_id : String
  client_secret : String
  role_arn : String
  region : String

/-- Source amazon-kendra-index-mcp-server util.py,
`get_identity_aware_qbusiness_client`: the TVMClient it constructs, with
every argument hard-coded (the `region` parameter of the function is
ignored). -/
def identity_aware_tvm_config : TVMClientConfig :=
  { issuer := "https://obrcaik025.execute-api.us-east-1.amazonaws.com/prod/",
    client_id := "oidc-tvm-239122513475",
    client_secret := "fbe06e868dc34f8bb5e4ee246eefad37",
    role_arn := "arn:aws:iam::239122513475:role/tvm-qbiz-custom-oidc-role",
    region := "us-east-1" }

/-- Source amazon-kendra-index-mcp-server util.py: the hard-coded email
passed to `get_sigv4_credentials`. -/
def identity_aware_email : String := "tomron@amazon.com"

end Kendra

/-- C2: For every PKCE pair generated — by `OktaOAuthClient.generate_pkce_pair`
and by the Salesforce app's `/login` handler — the returned code_challenge
equals the base64url encoding, with trailing padding removed, of the
SHA-256 digest of the UTF-8 encoding of the returned code_verifier, the
formula of RFC 7636. -/
theorem c2_pkce_challenge_is_rfc_formula :
    (∀ verifier : String,
        (Okta.generate_pkce_pair verifier).2
          = pkce_challenge_rfc (Okta.generate_pkce_pair verifier).1) ∧
    (∀ randomBytes : List Nat,
        (Sf.login_pkce_pair randomBytes).2
          = pkce_challenge_rfc (Sf.login_pkce_pair randomBytes).1) :=
  ⟨fun _ => rfl, fun _ => rfl⟩

/-- C5: `save_tokens(d)` writes the dictionary `d` itself (no transformation
or encryption) to the single file `tokens.json`, touching no other file,
and a subsequent `load_tokens()` returns `d` and leaves the client in the
saved state. -/
theorem c5_save_load_roundtrip (σ : Okta.ClientState) (d : Dict) :
    TOKEN_STORAGE_FILE = "tokens.json" ∧
    alook (Okta.save_tokens σ d).fs TOKEN_STORAGE_FILE = some d ∧
    (∀ f : String, f ≠ TOKEN_STORAGE_FILE →
        alook (Okta.save_tokens σ d).fs f = alook σ.fs f) ∧
    Okta.load_tokens (Okta.save_tokens σ d) = (d, Okta.save_tokens σ d) := by
  refine ⟨rfl, alook_ains_self σ.fs TOKEN_STORAGE_FILE d, ?_, ?_⟩
  · intro f hf
    exact alook_ains_ne σ.fs TOKEN_STORAGE_FILE f d (Ne.symm hf)
  · simp [Okta.load_tokens, Okta.save_tokens, alook_ains_self]

/-- Witness for C5 at a concrete state: saving does not disturb the entry of
a different file. -/
theorem c5_save_load_roundtrip_witness :
    alook (Okta.save_tokens ⟨[("other.json", [])], []⟩
        [("access_token", J.str "a")]).fs "other.json" = some [] :=
  (c5_save_load_roundtrip ⟨[("other.json", [])], []⟩
      [("access_token", J.str "a")]).2.2.1 "other.json" (by decide)

/-- C8: the MathTool returns a + b, a - b, a * b, a / b for the four
operations, raises a ValueError on division by zero, and raises a
ValueError on any operation outside the four. -/
theorem c8_math_tool_cases (a b : ℚ) (op : String) :
    Kendra.math_tool "add" a b = .ok (a + b) ∧
    Kendra.math_tool "subtract" a b = .ok (a - b) ∧
    Kendra.math_tool "multiply" a b = .ok (a * b) ∧
    (b ≠ 0 → Kendra.math_tool "divide" a b = .ok (a / b)) ∧
    (b = 0 → Kendra.math_tool "divide" a b
        = .error (Kendra.MathError.zeroDenominator b)) ∧
    (op ≠ "add" → op ≠ "subtract" → op ≠ "multiply" → op ≠ "divide" →
        Kendra.math_tool op a b = .error (Kendra.MathError.invalidOperation op)) := by
  refine ⟨rfl, rfl, rfl, ?_, ?_, ?_⟩
  · intro hb
    simp [Kendra.math_tool, hb]
  · intro hb
    simp [Kendra.math_tool, hb]
  · intro h1 h2 h3 h4
    rw [Kendra.math_tool.eq_def]
    split
    · exact absurd rfl h1
    · exact absurd rfl h2
    · exact absurd rfl h3
    · exact absurd rfl h4
    · rfl

/-- Witness for C8 at concrete numbers: a division, a zero denominator and
an unknown operation. -/
theorem c8_math_tool_cases_witness :
    Kendra.math_tool "divide" (6 : ℚ) 3 = .ok (6 / 3) ∧
    Kendra.math_tool "divide" (5 : ℚ) 0
      = .error (Kendra.MathError.zeroDenominator 0) ∧
    Kendra.math_tool "modulo" (5 : ℚ) 0
      = .error (Kendra.MathError.invalidOperation "modulo") :=
  ⟨(c8_math_tool_cases 6 3 "modulo").2.2.2.1 (by norm_num),
   (c8_math_tool_cases 5 0 "modulo").2.2.2.2.1 rfl,
   (c8_math_tool_cases 5 0 "modulo").2.2.2.2.2 (by decide) (by decide)
     (by decide) (by decide)⟩

/-- C7: every ChatSync request the QBusinessChatSyncTool builds carries the
same hard-coded applicationId, pluginId and authChallengeResponse (access
token and instance url), whatever the userMessage, conversationId and
attributionToken; and the Kendra MCP server's
`get_identity_aware_qbusiness_client` uses a hard-coded TVM issuer,
client id, client secret, role arn and email. -/
theorem c7_hard_coded_credentials :
    (∀ (userMessage : String) (conversationId attributionToken : Option String),
        alook (QBus.chatSyncRequestParams userMessage conversationId attributionToken)
            "applicationId"
          = some (J.str "43b53b94-f607-4c3d-8938-d05937db8d62") ∧
        alook (QBus.chatSyncRequestParams userMessage conversationId attributionToken)
            "chatModeConfiguration"
          = some (J.obj [("pluginConfiguration",
              J.obj [("pluginId", J.str "e3873c23-5455-44c6-bea1-fbaadf3b22c4")])]) ∧
        alook (QBus.chatSyncRequestParams userMessage conversationId attributionToken)
            "authChallengeResponse"
          = some (J.obj [("responseMap",
              J.obj [("access_token",
                       J.str "00Dbm00000Iyskm!AQEAQLU_nn3W2.LPFwxYO2mC5874YKBNx0"),
                     ("instance_url",
                       J.str "https://aws200-dev-ed.develop.lightning.force.com/services/data/v60.0")])])) ∧
    Kendra.identity_aware_tvm_config.issuer
      = "https://obrcaik025.execute-api.us-east-1.amazonaws.com/prod/" ∧
    Kendra.identity_aware_tvm_config.client_id = "oidc-tvm-239122513475" ∧
    Kendra.identity_aware_tvm_config.client_secret
      = "fbe06e868dc34f8bb5e4ee246eefad37" ∧
    Kendra.identity_aware_tvm_config.role_arn
      = "arn:aws:iam::239122513475:role/tvm-qbiz-custom-oidc-role" ∧
    Kendra.identity_aware_tvm_config.region = "us-east-1" ∧
    Kendra.identity_aware_email = "tomron@amazon.com" := by
  refine ⟨?_, rfl, rfl, rfl, rfl, rfl, rfl⟩
  intro userMessage conversationId attributionToken
  cases conversationId <;> cases attributionToken <;>
    refine ⟨?_, ?_, ?_⟩ <;>
    simp [QBus.chatSyncRequestParams, alook_ains_ne, alook]

/-- C4: for each MCP tool — QBusinessListApplicationsTool,
QBusinessSearchRelevantContentTool, QBusinessChatSyncTool and the Kendra
query tool — when the underlying API call raises an exception with text
`e`, the tool neither propagates nor retries: it returns exactly the
dictionary holding the `error` key with `e` and the tool's identifying
parameters. -/
theorem c4_tools_catch_api_errors :
    (∀ (client : QBus.ListClient) (env region : Option String)
        (maxResults : Option Int) (nextToken : Option String) (e : String),
        client.list_applications maxResults nextToken = .error e →
        QBus.qbusiness_list_applications_tool client env region maxResults nextToken
          = J.obj [("error", J.str e),
                   ("region", J.str (regionOrDefault region env))]) ∧
    (∀ (queryText applicationId retrieverId e : String),
        QBus.qbusiness_search_relevant_content_tool (.error e)
            queryText applicationId retrieverId
          = J.obj [("error", J.str e),
                   ("query", J.str queryText),
                   ("applicationId", J.str applicationId),
                   ("retrieverId", J.str retrieverId)]) ∧
    (∀ (chat_sync : Dict → Except String QBus.ChatSyncResponse)
        (userMessage : String) (region conversationId attributionToken : Option String)
        (e : String),
        chat_sync (QBus.chatSyncRequestParams userMessage conversationId attributionToken)
          = .error e →
        QBus.qbusiness_chat_sync_tool chat_sync userMessage region
            conversationId attributionToken
          = J.obj [("error", J.str e),
                   ("applicationId", J.str "43b53b94-f607-4c3d-8938-d05937db8d62"),
                   ("userMessage", J.str userMessage),
                   ("pluginId", J.str "e3873c23-5455-44c6-bea1-fbaadf3b22c4")]) ∧
    (∀ (kendra_index_id : String)
        (queryApi : String → String → Except String Kendra.KQueryResponse)
        (query e : String),
        queryApi kendra_index_id query = .error e →
        Kendra.example_tool (some kendra_index_id) queryApi query
          = J.obj [("error", J.str e),
                   ("query", J.str query),
                   ("index_id", J.str kendra_index_id)]) := by
  refine ⟨?_, ?_, ?_, ?_⟩
  · intro client env region maxResults nextToken e h
    simp [QBus.qbusiness_list_applications_tool, h]
  · intro queryText applicationId retrieverId e
    simp [QBus.qbusiness_search_relevant_content_tool]
  · intro chat_sync userMessage region conversationId attributionToken e h
    simp [QBus.qbusiness_chat_sync_tool, h]
  · intro kendra_index_id queryApi query e h
    simp [Kendra.example_tool, h]

/-- Witness for C4 at concrete failing clients: each tool turns the raised
exception text into an error dictionary. -/
theorem c4_tools_catch_api_errors_witness :
    QBus.qbusiness_list_applications_tool
        ⟨fun _ _ => .error "boom", fun _ => .error "x"⟩ none none none none
      = J.obj [("error", J.str "boom"), ("region", J.str "us-east-1")] ∧
    QBus.qbusiness_search_relevant_content_tool (.error "boom") "q" "app" "ret"
      = J.obj [("error", J.str "boom"), ("query", J.str "q"),
               ("applicationId", J.str "app"), ("retrieverId", J.str "ret")] ∧
    QBus.qbusiness_chat_sync_tool (fun _ => .error "boom") "hi" none none none
      = J.obj [("error", J.str "boom"),
               ("applicationId", J.str "43b53b94-f607-4c3d-8938-d05937db8d62"),
               ("userMessage", J.str "hi"),
               ("pluginId", J.str "e3873c23-5455-44c6-bea1-fbaadf3b22c4")] ∧
    Kendra.example_tool (some "idx") (fun _ _ => .error "boom") "q"
      = J.obj [("error", J.str "boom"), ("query", J.str "q"),
               ("index_id", J.str "idx")] :=
  ⟨c4_tools_catch_api_errors.1 ⟨fun _ _ => .error "boom", fun _ => .error "x"⟩
      none none none none "boom" rfl,
   c4_tools_catch_api_errors.2.1 "q" "app" "ret" "boom",
   c4_tools_catch_api_errors.2.2.1 (fun _ => .error "boom") "hi" none none none
      "boom" rfl,
   c4_tools_catch_api_errors.2.2.2 "idx" (fun _ _ => .error "boom") "q" "boom" rfl⟩

/-- Projection: the `ok` flag of a refresh/revoke style result. -/
def Okta.resultOk (res : Option (Bool × Okta.ClientState × Bool)) :
    Option Bool :=
  res.map (fun x => x.1)

/-- Projection: whether the network was contacted. -/
def Okta.resultNet (res : Option (Bool × Okta.ClientState × Bool)) :
    Option Bool :=
  res.map (fun x => x.2.2)

/-- Projection: the token file content in the final state of a result. -/
def Okta.resultSaved (res : Option (Bool × Okta.ClientState × Bool)) :
    Option Dict :=
  res.bind (fun x => alook x.2.1.fs TOKEN_STORAGE_FILE)

/-- Field lookup through an optional dictionary. -/
def jfield (d? : Option Dict) (k : String) : Option J :=
  d?.bind (fun d => alook d k)

/-- Adding the expiry timestamp never touches the `refresh_token` entry. -/
theorem alook_add_expires_at_rt (r t₁ : Dict) (now : Int)
    (hadd : Okta.add_expires_at r now = some t₁) :
    alook t₁ "refresh_token" = alook r "refresh_token" := by
  unfold Okta.add_expires_at at hadd
  cases hei : alook r "expires_in" with
  | none =>
      rw [hei] at hadd
      injection hadd with h
      rw [← h]
  | some v =>
      rw [hei] at hadd
      cases v with
      | int k =>
          injection hadd with h
          rw [← h]
          exact alook_ains_ne r "expires_at" "refresh_token" _ (by decide)
      | null => exact Option.noConfusion hadd
      | str s => exact Option.noConfusion hadd
      | obj l => exact Option.noConfusion hadd
      | arr l => exact Option.noConfusion hadd

/-- Shape of a successful `refresh_tokens` run: assuming a `refresh_token`
is present after the reload and the expiry bookkeeping succeeds with
result `t₁`, the call returns success having contacted the endpoint and
saves a dictionary whose `expires_at` is that of `t₁`, which always holds
a `refresh_token`, the reloaded one whenever the response lacked one. -/
theorem refresh_ok_shape (σ : Okta.ClientState) (r t₁ : Dict) (now : Int)
    (hmem : amem (Okta.afterMem σ) "refresh_token" = true)
    (hadd : Okta.add_expires_at r now = some t₁) :
    ∃ d', Okta.refresh_tokens σ (.ok r) now
        = some (true, Okta.save_tokens (Okta.afterState σ) d', true) ∧
      alook d' "expires_at" = alook t₁ "expires_at" ∧
      (alook d' "refresh_token").isSome = true ∧
      (alook r "refresh_token" = none →
          alook d' "refresh_token" = alook (Okta.afterMem σ) "refresh_token") := by
  have ht₁ := alook_add_expires_at_rt r t₁ now hadd
  have hmem' : amem (Okta.load_tokens σ).2.mem "refresh_token" = true := hmem
  by_cases hrt : amem t₁ "refresh_token" = true
  · refine ⟨t₁, ?_, rfl, hrt, ?_⟩
    · simp only [Okta.refresh_tokens, hmem', Bool.not_true, Bool.false_and,
        Bool.if_false_left, Bool.and_true, hadd]
      simp [hrt, Okta.afterState]
    · intro h0
      unfold amem at hrt
      rw [ht₁, h0] at hrt
      simp at hrt
  · obtain ⟨v, hv⟩ := Option.isSome_iff_exists.mp hmem'
    refine ⟨ains t₁ "refresh_token" v, ?_, ?_, ?_, ?_⟩
    · simp only [Okta.refresh_tokens, hmem', Bool.not_true, hadd]
      simp only [Bool.not_eq_true] at hrt
      simp [hrt, hv, Okta.afterState, hmem']
    · exact alook_ains_ne t₁ "refresh_token" "expires_at" v (by decide)
    · rw [alook_ains_self]
      rfl
    · intro _
      rw [alook_ains_self]
      unfold Okta.afterMem
      rw [hv]

/-- C6: in `exchange_code_for_tokens` and `refresh_tokens`, when the token
endpoint response contains `expires_in = k`, the dictionary saved to
storage contains `expires_at = now + k`; when `expires_in` is absent, no
`expires_at` field is added (the exchange saves the response dictionary
unchanged, and the refresh leaves `expires_at` exactly as in the
response). -/
theorem c6_expires_at_bookkeeping (σ : Okta.ClientState) (r : Dict)
    (now : Int) :
    (∀ k : Int, alook r "expires_in" = some (J.int k) →
        (Okta.exchange_code_for_tokens σ (.ok r) now
            = some (ains r "expires_at" (J.int (now + k)),
                Okta.save_tokens σ (ains r "expires_at" (J.int (now + k)))) ∧
          alook (ains r "expires_at" (J.int (now + k))) "expires_at"
            = some (J.int (now + k))) ∧
        (amem (Okta.afterMem σ) "refresh_token" = true →
          Okta.resultOk (Okta.refresh_tokens σ (.ok r) now) = some true ∧
          jfield (Okta.resultSaved (Okta.refresh_tokens σ (.ok r) now))
              "expires_at"
            = some (J.int (now + k)))) ∧
    (alook r "expires_in" = none →
        Okta.exchange_code_for_tokens σ (.ok r) now
          = some (r, Okta.save_tokens σ r) ∧
        (amem (Okta.afterMem σ) "refresh_token" = true →
          Okta.resultOk (Okta.refresh_tokens σ (.ok r) now) = some true ∧
          jfield (Okta.resultSaved (Okta.refresh_tokens σ (.ok r) now))
              "expires_at"
            = alook r "expires_at")) := by
  constructor
  · intro k hk
    have hadd : Okta.add_expires_at r now
        = some (ains r "expires_at" (J.int (now + k))) := by
      simp [Okta.add_expires_at, hk]
    constructor
    · exact ⟨by simp [Okta.exchange_code_for_tokens, hadd],
        alook_ains_self r "expires_at" (J.int (now + k))⟩
    · intro hmem
      obtain ⟨d', heq, hea, _, _⟩ := refresh_ok_shape σ r _ now hmem hadd
      rw [alook_ains_self] at hea
      constructor
      · simp [Okta.resultOk, heq]
      · simp [jfield, Okta.resultSaved, heq, Okta.save_tokens,
          alook_ains_self, hea]
  · intro h0
    have hadd : Okta.add_expires_at r now = some r := by
      simp [Okta.add_expires_at, h0]
    constructor
    · simp [Okta.exchange_code_for_tokens, hadd]
    · intro hmem
      obtain ⟨d', heq, hea, _, _⟩ := refresh_ok_shape σ r _ now hmem hadd
      constructor
      · simp [Okta.resultOk, heq]
      · simp [jfield, Okta.resultSaved, heq, Okta.save_tokens,
          alook_ains_self, hea]

/-- Witness for C6 at a concrete exchange: a response with
`expires_in = 100` at time 5 is saved with `expires_at = 105`. -/
theorem c6_expires_at_bookkeeping_witness :
    Okta.exchange_code_for_tokens ⟨[], []⟩ (.ok [("expires_in", J.int 100)]) 5
      = some (ains [("expires_in", J.int 100)] "expires_at" (J.int (5 + 100)),
          Okta.save_tokens ⟨[], []⟩
            (ains [("expires_in", J.int 100)] "expires_at" (J.int (5 + 100)))) :=
  ((c6_expires_at_bookkeeping ⟨[], []⟩ [("expires_in", J.int 100)] 5).1
      100 rfl).1.1

/-- C3: a successful `refresh_tokens` preserves the stored refresh token:
when the endpoint response omits `refresh_token` and the reloaded
dictionary holds one, the dictionary saved after the refresh holds the old
one; and in every successful refresh the saved dictionary still holds some
refresh token. -/
theorem c3_refresh_preserves_refresh_token (σ : Okta.ClientState) (r : Dict)
    (now : Int)
    (hmem : amem (Okta.afterMem σ) "refresh_token" = true)
    (hwf : (Okta.add_expires_at r now).isSome = true) :
    Okta.resultOk (Okta.refresh_tokens σ (.ok r) now) = some true ∧
    Okta.resultNet (Okta.refresh_tokens σ (.ok r) now) = some true ∧
    (alook r "refresh_token" = none →
        jfield (Okta.resultSaved (Okta.refresh_tokens σ (.ok r) now))
            "refresh_token"
          = alook (Okta.afterMem σ) "refresh_token") ∧
    (jfield (Okta.resultSaved (Okta.refresh_tokens σ (.ok r) now))
        "refresh_token").isSome = true := by
  obtain ⟨t₁, hadd⟩ := Option.isSome_iff_exists.mp hwf
  obtain ⟨d', heq, _, hrt, hold⟩ := refresh_ok_shape σ r t₁ now hmem hadd
  refine ⟨by simp [Okta.resultOk, heq], by simp [Okta.resultNet, heq], ?_, ?_⟩
  · intro h0
    simp [jfield, Okta.resultSaved, heq, Okta.save_tokens, alook_ains_self,
      hold h0]
  · simp only [jfield, Okta.resultSaved, heq, Okta.save_tokens]
    simp [alook_ains_self, hrt]

/-- Witness for C3 at a concrete state: a stored refresh token survives a
refresh whose response has no refresh token. -/
theorem c3_refresh_preserves_refresh_token_witness :
    jfield (Okta.resultSaved (Okta.refresh_tokens
        ⟨[("tokens.json", [("refresh_token", J.str "R")])], []⟩
        (.ok [("access_token", J.str "A")]) 0)) "refresh_token"
      = alook (Okta.afterMem
          ⟨[("tokens.json", [("refresh_token", J.str "R")])], []⟩)
          "refresh_token" :=
  (c3_refresh_preserves_refresh_token
      ⟨[("tokens.json", [("refresh_token", J.str "R")])], []⟩
      [("access_token", J.str "A")] 0 rfl rfl).2.2.1 rfl

/-- C1 counterexample: in a state with no tokens.json on disk but a stale
access token in `self.tokens`, the persistent store is empty (first
conjunct), yet `is_token_valid` returns true — the reload attempt leaves
the stale in-memory dictionary in place instead of emptying it, against
the claim that an empty store yields false. -/
theorem c1_is_token_valid_counterexample :
    alook (Okta.ClientState.mk [] [("access_token", J.str "tok")]).fs
        TOKEN_STORAGE_FILE = none ∧
    Okta.is_token_valid ⟨[], [("access_token", J.str "tok")]⟩
        "access_token" 0
      = some (true, ⟨[], [("access_token", J.str "tok")]⟩) :=
  ⟨rfl, rfl⟩

/-- C1 amended: `is_token_valid` attempts to re-read the token file, which
leaves the previous in-memory dictionary in place when the file is absent
or unreadable; it returns false when the resulting in-memory dictionary is
empty or lacks `token_type`, and otherwise consults `expires_at`: false
exactly when `now ≥ expires_at - 60`, true when `expires_at` is absent. -/
theorem c1_is_token_valid_amended (σ : Okta.ClientState)
    (token_type : String) (now : Int) :
    (((Okta.afterMem σ).isEmpty || !(amem (Okta.afterMem σ) token_type))
        = true →
        Okta.is_token_valid σ token_type now
          = some (false, Okta.afterState σ)) ∧
    (((Okta.afterMem σ).isEmpty || !(amem (Okta.afterMem σ) token_type))
        = false →
        (∀ t : Int, alook (Okta.afterMem σ) "expires_at" = some (J.int t) →
            Okta.is_token_valid σ token_type now
              = some (decide (now < t - 60), Okta.afterState σ)) ∧
        (alook (Okta.afterMem σ) "expires_at" = none →
            Okta.is_token_valid σ token_type now
              = some (true, Okta.afterState σ))) := by
  constructor
  · intro h
    simp only [Okta.afterMem] at h
    simp [Okta.is_token_valid, h, Okta.afterState]
  · intro h
    simp only [Okta.afterMem] at h
    constructor
    · intro t ht
      simp only [Okta.afterMem] at ht
      by_cases hn : now ≥ t - 60
      · have hd : decide (now < t - 60) = false := decide_eq_false (by omega)
        simp [Okta.is_token_valid, h, ht, hn, hd, Okta.afterState]
      · have hd : decide (now < t - 60) = true := decide_eq_true (by omega)
        simp [Okta.is_token_valid, h, ht, hn, hd, Okta.afterState]
    · intro ht
      simp only [Okta.afterMem] at ht
      simp [Okta.is_token_valid, h, ht, Okta.afterState]

/-- Witness for the amended C1 at a concrete state: a stored token that
expired 900 seconds before the current time is reported invalid. -/
theorem c1_is_token_valid_amended_witness :
    Okta.is_token_valid
        ⟨[("tokens.json",
           [("access_token", J.str "x"), ("expires_at", J.int 100)])], []⟩
        "access_token" 1000
      = some (decide ((1000 : Int) < 100 - 60),
          Okta.afterState
            ⟨[("tokens.json",
               [("access_token", J.str "x"), ("expires_at", J.int 100)])],
             []⟩) :=
  ((c1_is_token_valid_amended
      ⟨[("tokens.json",
         [("access_token", J.str "x"), ("expires_at", J.int 100)])], []⟩
      "access_token" 1000).2 rfl).1 100 rfl

/-- C9 counterexample: in a state with no tokens.json on disk (first
conjunct: the store is absent) but a stale access token in `self.tokens`,
`revoke_tokens` contacts the revocation endpoint (third component `true`),
against the claim that with no tokens.json file it returns true without a
network call. -/
theorem c9_revoke_counterexample :
    alook (Okta.ClientState.mk [] [("access_token", J.str "tok")]).fs
        TOKEN_STORAGE_FILE = none ∧
    Okta.revoke_tokens ⟨[], [("access_token", J.str "tok")]⟩ (.ok ())
      = (true, ⟨[], [("access_token", J.str "tok")]⟩, true) :=
  ⟨rfl, rfl⟩

/-- C9 amended: when the in-memory dictionary after the reload attempt is
empty, `revoke_tokens` returns true without contacting the revocation
endpoint and leaves the store unchanged; when it is nonempty but holds
neither `access_token` nor `refresh_token`, it returns false, also without
a network call. -/
theorem c9_revoke_early_returns_amended (σ : Okta.ClientState)
    (response : Except String Unit) :
    ((Okta.afterMem σ).isEmpty = true →
        Okta.revoke_tokens σ response = (true, Okta.afterState σ, false)) ∧
    ((Okta.afterMem σ).isEmpty = false →
        alook (Okta.afterMem σ) "access_token" = none →
        alook (Okta.afterMem σ) "refresh_token" = none →
        Okta.revoke_tokens σ response = (false, Okta.afterState σ, false)) := by
  constructor
  · intro h
    simp only [Okta.afterMem] at h
    simp [Okta.revoke_tokens, h, Okta.afterState]
  · intro h ha hr
    simp only [Okta.afterMem] at h ha hr
    simp [Okta.revoke_tokens, h, ha, hr, Okta.afterState, truthy]

/-- Witness for the amended C9 at a concrete state: a file holding an empty
dictionary makes revoke_tokens answer true with no network call. -/
theorem c9_revoke_early_returns_amended_witness :
    Okta.revoke_tokens ⟨[("tokens.json", [])], [("x", J.int 1)]⟩ (.ok ())
      = (true, Okta.afterState ⟨[("tokens.json", [])], [("x", J.int 1)]⟩,
         false) :=
  (c9_revoke_early_returns_amended
      ⟨[("tokens.json", [])], [("x", J.int 1)]⟩ (.ok ())).1 rfl

/-- C10: each PKCE verifier of the Salesforce app is single-use: a
successful exchange in the callback removes the verifier stored under its
state value, and a second callback carrying the same state value is not
exchanged again — it yields the invalid-state error page and leaves the
state unchanged. -/
theorem c10_pkce_verifier_single_use (st : Sf.AppState)
    (s c v fresh : String) (http : Sf.TokenHttp) (ui : Dict) (a u : String)
    (hv : alook st.pkce_verifiers s = some v)
    (hstatus : http.status = 200)
    (hat : alook http.json "access_token" = some (J.str a))
    (hiu : alook http.json "instance_url" = some (J.str u)) :
    Sf.salesforce_callback st (some c) (some s) none http fresh ui
      = (some (Sf.CallbackPage.success fresh http.json ui),
         ⟨ains st.user_tokens fresh http.json, aerase st.pkce_verifiers s⟩) ∧
    alook (aerase st.pkce_verifiers s) s = none ∧
    (∀ (c' fresh' : String) (http' : Sf.TokenHttp) (ui' : Dict),
        Sf.salesforce_callback
            ⟨ains st.user_tokens fresh http.json, aerase st.pkce_verifiers s⟩
            (some c') (some s) none http' fresh' ui'
          = (some Sf.CallbackPage.invalidState,
             ⟨ains st.user_tokens fresh http.json,
              aerase st.pkce_verifiers s⟩)) := by
  refine ⟨?_, alook_aerase_self st.pkce_verifiers s, ?_⟩
  · simp [Sf.salesforce_callback, hv, hstatus, hat, hiu]
  · intro c' fresh' http' ui'
    simp [Sf.salesforce_callback, alook_aerase_self]

/-- Witness for C10 at a concrete state: one stored verifier, a 200 token
response with string access token and instance url. -/
theorem c10_pkce_verifier_single_use_witness :
    Sf.salesforce_callback ⟨[], [("S", "V")]⟩ (some "code") (some "S") none
        ⟨200, [("access_token", J.str "AT"), ("instance_url", J.str "IU")],
         ""⟩ "sess" []
      = (some (Sf.CallbackPage.success "sess"
            [("access_token", J.str "AT"), ("instance_url", J.str "IU")] []),
         ⟨ains [] "sess"
            [("access_token", J.str "AT"), ("instance_url", J.str "IU")],
          aerase [("S", "V")] "S"⟩) :=
  (c10_pkce_verifier_single_use ⟨[], [("S", "V")]⟩ "S" "code" "V" "sess"
      ⟨200, [("access_token", J.str "AT"), ("instance_url", J.str "IU")], ""⟩
      [] "AT" "IU" rfl rfl rfl rfl).1
